import Mathlib

/-!
Shallow embedding of the consultacep batch enrichment engine
(src/app.py and src/database.py).

Strings of postal codes are modelled as lists of characters; the pandas
normalization pipeline, the per-CEP multi-API fetch, the batch loop of
processar_job and the job-store status update are translated function by
function from the source.
-/

namespace ConsultaCep

/-- Python str.isdigit: false on the empty string, true when every
character is a digit. -/
def pyIsdigit (l : List Char) : Bool := !l.isEmpty && l.all Char.isDigit

/-- The regex replace of processar_job line 102: str.replace of every
non-digit character by nothing. -/
def stripNonDigits (l : List Char) : List Char := l.filter Char.isDigit

/-- Python str.zfill: left-pad with zero characters up to the width. -/
def zfill (w : Nat) (l : List Char) : List Char :=
  List.replicate (w - l.length) '0' ++ l

/-- The whole normalization of processar_job line 102: strip non-digits,
then zfill 8. -/
def cep_padronizado (l : List Char) : List Char := zfill 8 (stripNonDigits l)

/-- Result of one provider HTTP request as seen by fetch_all_apis_for_cep
after asyncio.gather with return_exceptions=True: either an httpx.Response
(status code, parsed JSON object of string fields, and whether the raw
text contains the substring erro), or an exception value, carried with its
type name for the Falha status message. -/
inductive HttpResult where
  | response (statusCode : Nat) (body : List (String × String)) (textHasErro : Bool)
  | failure (typeName : String)
deriving DecidableEq, Repr

/-- Python type(x).__name__ for the values held in results_map. -/
def HttpResult.typeName : HttpResult → String
  | .response _ _ _ => "Response"
  | .failure n => n

/-- Python dict.get on the parsed JSON body. -/
def dictGet (body : List (String × String)) (k : String) : Option String :=
  (body.find? (fun p => p.1 == k)).map (·.2)

/-- Line 61: data_br is the JSON body when the result is a Response with
status 200, else the empty dict. -/
def brasilApiData : HttpResult → List (String × String)
  | .response c body _ => if c = 200 then body else []
  | .failure _ => []

/-- Line 71: data_via additionally requires that the raw text does not
contain erro (the ViaCEP embedded error marker). -/
def viaCepData : HttpResult → List (String × String)
  | .response c body e => if c = 200 ∧ e = false then body else []
  | .failure _ => []

/-- Line 81: data_awe, same shape as BrasilAPI. -/
def awesomeApiData : HttpResult → List (String × String)
  | .response c body _ => if c = 200 then body else []
  | .failure _ => []

/-- The base_row built in run_fetch (lines 117-120): the PROPOSTA and CEP
column values of one input row. -/
structure BaseRow where
  proposta : String
  cep : String
deriving DecidableEq, Repr

/-- One output row appended by fetch_all_apis_for_cep: the base row merged
with the address fields and the STATUS string. The invalid-format row
carries no address keys, modelled as none. -/
structure Row where
  proposta : String
  cep : String
  endereco : Option String := none
  bairro : Option String := none
  cidade : Option String := none
  estado : Option String := none
  status : String := ""
deriving DecidableEq, Repr

/-- The three provider responses returned by asyncio.gather for one CEP,
keyed as in the tasks dict of lines 50-54. -/
structure ApiResponses where
  brasilapi : HttpResult
  viacep : HttpResult
  awesomeapi : HttpResult
deriving DecidableEq, Repr

/-- The guard of line 46: not cep or not cep.isdigit() or len(cep) != 8. -/
def cepInvalido (cep : List Char) : Bool :=
  cep.isEmpty || !pyIsdigit cep || cep.length != 8

/-- Return value of fetch_all_apis_for_cep, together with the trace of
provider HTTP requests it issues (the tasks dict of lines 50-54). -/
structure FetchResult where
  calls : List (String × List Char)
  rows : List Row
deriving DecidableEq, Repr

/-- Lines 42-89: for an invalid code, one error row and no request; for a
valid code, fire all three providers and emit one row per provider, in the
fixed order BRASILAPI, VIACEP, AWESOMEAPI, each carrying that provider's
normalized fields and a Sucesso / Falha status. -/
def fetch_all_apis_for_cep (original_row : BaseRow) (cep : List Char)
    (api : ApiResponses) : FetchResult :=
  if cepInvalido cep then
    { calls := [],
      rows := [{ proposta := original_row.proposta, cep := original_row.cep,
                 status := "Formato de CEP Inválido" }] }
  else
    let data_br := brasilApiData api.brasilapi
    let data_via := viaCepData api.viacep
    let data_awe := awesomeApiData api.awesomeapi
    { calls := [("BRASILAPI", cep), ("VIACEP", cep), ("AWESOMEAPI", cep)],
      rows :=
        [{ proposta := original_row.proposta, cep := original_row.cep,
           endereco := dictGet data_br "street",
           bairro := dictGet data_br "neighborhood",
           cidade := dictGet data_br "city",
           estado := dictGet data_br "state",
           status := if data_br.isEmpty then
               "BRASILAPI: Falha (" ++ api.brasilapi.typeName ++ ")"
             else "BRASILAPI: Sucesso" },
         { proposta := original_row.proposta, cep := original_row.cep,
           endereco := dictGet data_via "logradouro",
           bairro := dictGet data_via "bairro",
           cidade := dictGet data_via "localidade",
           estado := dictGet data_via "uf",
           status := if data_via.isEmpty then
               "VIACEP: Falha (" ++ api.viacep.typeName ++ ")"
             else "VIACEP: Sucesso" },
         { proposta := original_row.proposta, cep := original_row.cep,
           endereco := dictGet data_awe "address",
           bairro := dictGet data_awe "district",
           cidade := dictGet data_awe "city",
           estado := dictGet data_awe "state",
           status := if data_awe.isEmpty then
               "AWESOMEAPI: Falha (" ++ api.awesomeapi.typeName ++ ")"
             else "AWESOMEAPI: Sucesso" }] }

/-- One input spreadsheet row, reduced to the two columns processar_job
reads: the proposta column value and the cep column value (both read as
strings, dtype=str). -/
structure InputRow where
  prop_val : String
  cep_val : String
deriving DecidableEq, Repr

/-- The provider environment for one job run: what the three HTTP
endpoints answer for each (padded) postal code. The three endpoint URLs
are functions of the code only, so the environment is keyed by it. -/
def Env : Type := List Char → ApiResponses

/-- Lines 114-121: run_fetch builds the base_row from the proposta and cep
columns and awaits fetch_all_apis_for_cep on the row's cep_padronizado. -/
def run_fetch (env : Env) (row : InputRow) : FetchResult :=
  fetch_all_apis_for_cep ⟨row.prop_val, row.cep_val⟩
    (cep_padronizado row.cep_val.data)
    (env (cep_padronizado row.cep_val.data))

/-- BATCH_SIZE of line 18. -/
def BATCH_SIZE : Nat := 50

/-- CONCURRENCY_LIMIT of line 20. -/
def CONCURRENCY_LIMIT : Nat := 8

/-- Fuel-indexed chunking: slice the list into consecutive chunks of
BATCH_SIZE rows, recursing on a fuel bound so the definition is
structural. Any fuel at least the list length gives the same value. -/
def chunks50 : Nat → List InputRow → List (List InputRow)
  | 0, _ => []
  | _, [] => []
  | fuel + 1, l@(_ :: _) => l.take BATCH_SIZE :: chunks50 fuel (l.drop BATCH_SIZE)

/-- Line 104: lista_de_lotes, the df sliced into consecutive chunks of
BATCH_SIZE rows, as produced by range(0, len(df), BATCH_SIZE). -/
def lista_de_lotes (l : List InputRow) : List (List InputRow) :=
  chunks50 l.length l

/-- Lines 123-128: per batch, gather run_fetch over the rows in order and
flatten the nested result lists; save_results_to_db appends them, so the
results table for the job is the concatenation over batches. -/
def processar_job_results (env : Env) (rows : List InputRow) : List Row :=
  (lista_de_lotes rows).flatMap (fun lote => lote.flatMap (fun r => (run_fetch env r).rows))

/-- The provider requests issued over a whole job run, batch by batch and
row by row. -/
def processar_job_calls (env : Env) (rows : List InputRow) : List (String × List Char) :=
  (lista_de_lotes rows).flatMap (fun lote => lote.flatMap (fun r => (run_fetch env r).calls))

/-- Cumulative sums of a list starting from an accumulator. -/
def cumSums (acc : Nat) : List Nat → List Nat
  | [] => []
  | x :: xs => (acc + x) :: cumSums (acc + x) xs

/-- Lines 105, 130-131: the successive values of
total_propostas_processadas passed to update_job_status across the batch
loop — the running sum of the batch lengths, one persistence call per
batch. -/
def progress_updates (rows : List InputRow) : List Nat :=
  cumSums 0 ((lista_de_lotes rows).map List.length)

/-- The persisted job row, reduced to the columns update_job_status
touches plus total_ceps; finished_at holds an abstract timestamp. -/
structure Job where
  status : String
  total_ceps : Nat
  processed_ceps : Nat
  finished_at : Option Nat
deriving DecidableEq, Repr

/-- database.py lines 88-101: set status (and processed_ceps when given),
then stamp finished_at with the current time whenever the new status is
CONCLUIDO or FALHOU. -/
def update_job_status (now : Nat) (j : Job) (status : String)
    (processed_ceps : Option Nat := none) : Job :=
  let j1 : Job :=
    match processed_ceps with
    | some p => { j with status := status, processed_ceps := p }
    | none => { j with status := status }
  if status ∈ ["CONCLUIDO", "FALHOU"] then { j1 with finished_at := some now }
  else j1

/-- Snapshot of one batch of the dispatch loop (lines 112-124): how many
run_fetch tasks still wait on the semaphore, and, for each task currently
holding a semaphore slot, how many of its three gathered provider HTTP
requests are still in flight. -/
structure SemState where
  pending : Nat
  tasks : List Nat
deriving DecidableEq, Repr

/-- The scheduler moves of one batch with semaphore limit K: a waiting
task acquires a slot when fewer than K are held and immediately gathers
its three provider requests (lines 50-55); a single in-flight request
completes; a task whose requests are all done returns from the async with
block and releases its slot. -/
inductive SemStep (K : Nat) : SemState → SemState → Prop
  | start (p : Nat) (ts : List Nat) (h : ts.length < K) :
      SemStep K ⟨p + 1, ts⟩ ⟨p, 3 :: ts⟩
  | callDone (p c : Nat) (l₁ l₂ : List Nat) :
      SemStep K ⟨p, l₁ ++ (c + 1) :: l₂⟩ ⟨p, l₁ ++ c :: l₂⟩
  | finish (p : Nat) (l₁ l₂ : List Nat) :
      SemStep K ⟨p, l₁ ++ 0 :: l₂⟩ ⟨p, l₁ ++ l₂⟩

/-- States reachable when N resolution tasks are submitted against
semaphore limit K, from the initial state where all N wait. -/
def SemReachable (K N : Nat) (s : SemState) : Prop :=
  Relation.ReflTransGen (SemStep K) ⟨N, []⟩ s

/-- Number of provider HTTP requests in flight in a state. -/
def outstanding (s : SemState) : Nat := s.tasks.sum

/-- Semaphore-slot and per-request bounds that every reachable state of
one batch satisfies: at most K tasks hold a slot, and each holds at most
its three gathered requests. -/
def SemInv (K : Nat) (s : SemState) : Prop :=
  s.tasks.length ≤ K ∧ ∀ c ∈ s.tasks, c ≤ 3

/-- Concrete provider responses in which every provider answers HTTP 200
with a populated body and no embedded error marker. -/
def apiAllOk : ApiResponses where
  brasilapi := .response 200
    [("street", "Praça da Sé"), ("neighborhood", "Sé"),
     ("city", "São Paulo"), ("state", "SP")] false
  viacep := .response 200
    [("logradouro", "Praça da Sé"), ("bairro", "Sé"),
     ("localidade", "São Paulo"), ("uf", "SP")] false
  awesomeapi := .response 200
    [("address", "Praça da Sé"), ("district", "Sé"),
     ("city", "São Paulo"), ("state", "SP")] false

/-- Environment answering apiAllOk for every postal code. -/
def envAllOk : Env := fun _ => apiAllOk

/-! Helper lemmas about the batch slicing and the running progress sums. -/

lemma chunks50_congr : ∀ (f₁ f₂ : Nat) (l : List InputRow),
    l.length ≤ f₁ → l.length ≤ f₂ → chunks50 f₁ l = chunks50 f₂ l := by
  intro f₁
  induction f₁ with
  | zero =>
    intro f₂ l h₁ _
    have hl : l = [] := List.eq_nil_of_length_eq_zero (Nat.le_zero.mp h₁)
    subst hl
    cases f₂ <;> rfl
  | succ n ih =>
    intro f₂ l h₁ h₂
    cases l with
    | nil => cases f₂ <;> rfl
    | cons x xs =>
      cases f₂ with
      | zero => simp at h₂
      | succ m =>
        simp only [chunks50]
        refine congrArg _ (ih m _ ?_ ?_) <;>
          simp only [List.length_drop, List.length_cons, BATCH_SIZE] at * <;> omega

lemma lista_de_lotes_cons (x : InputRow) (xs : List InputRow) :
    lista_de_lotes (x :: xs) =
      (x :: xs).take BATCH_SIZE :: lista_de_lotes ((x :: xs).drop BATCH_SIZE) := by
  show chunks50 (xs.length + 1) (x :: xs) = _
  simp only [chunks50, lista_de_lotes]
  refine congrArg _ (chunks50_congr _ _ _ ?_ ?_) <;>
    simp only [List.length_drop, List.length_cons, BATCH_SIZE] <;> omega

lemma lista_de_lotes_flatMap {β : Type} (f : InputRow → List β) : ∀ (l : List InputRow),
    (lista_de_lotes l).flatMap (fun lote => lote.flatMap f) = l.flatMap f := by
  have key : ∀ (fuel : Nat) (l : List InputRow), l.length ≤ fuel →
      (chunks50 fuel l).flatMap (fun lote => lote.flatMap f) = l.flatMap f := by
    intro fuel
    induction fuel with
    | zero =>
      intro l h
      have hl : l = [] := List.eq_nil_of_length_eq_zero (Nat.le_zero.mp h)
      subst hl; rfl
    | succ n ih =>
      intro l h
      cases l with
      | nil => rfl
      | cons x xs =>
        simp only [chunks50, List.flatMap_cons]
        rw [ih _ (by simp only [List.length_drop, List.length_cons, BATCH_SIZE] at *; omega)]
        rw [← List.flatMap_append, List.take_append_drop]
        simp
  intro l
  exact key l.length l le_rfl

lemma lista_de_lotes_sum_length : ∀ (l : List InputRow),
    ((lista_de_lotes l).map List.length).sum = l.length := by
  have key : ∀ (fuel : Nat) (l : List InputRow), l.length ≤ fuel →
      ((chunks50 fuel l).map List.length).sum = l.length := by
    intro fuel
    induction fuel with
    | zero =>
      intro l h
      have hl : l = [] := List.eq_nil_of_length_eq_zero (Nat.le_zero.mp h)
      subst hl; rfl
    | succ n ih =>
      intro l h
      cases l with
      | nil => rfl
      | cons x xs =>
        simp only [chunks50, List.map_cons, List.sum_cons]
        rw [ih _ (by simp only [List.length_drop, List.length_cons, BATCH_SIZE] at *; omega)]
        simp only [List.length_take, List.length_drop, List.length_cons, BATCH_SIZE]
        omega
  intro l
  exact key l.length l le_rfl

lemma lista_de_lotes_pos : ∀ (l : List InputRow) (b : List InputRow),
    b ∈ lista_de_lotes l → 0 < b.length := by
  have key : ∀ (fuel : Nat) (l : List InputRow), l.length ≤ fuel →
      ∀ b ∈ chunks50 fuel l, 0 < b.length := by
    intro fuel
    induction fuel with
    | zero =>
      intro l h
      have hl : l = [] := List.eq_nil_of_length_eq_zero (Nat.le_zero.mp h)
      subst hl; intro b hb; cases hb
    | succ n ih =>
      intro l h b hb
      cases l with
      | nil => cases hb
      | cons x xs =>
        simp only [chunks50, List.mem_cons] at hb
        rcases hb with hb | hb
        · subst hb
          simp only [List.length_take, List.length_cons, BATCH_SIZE]
          omega
        · exact ih _ (by simp only [List.length_drop, List.length_cons, BATCH_SIZE] at *; omega) b hb
  intro l
  exact key l.length l le_rfl

lemma cumSums_length : ∀ (xs : List Nat) (acc : Nat),
    (cumSums acc xs).length = xs.length := by
  intro xs
  induction xs with
  | nil => intro acc; rfl
  | cons x xs ih => intro acc; simp [cumSums, ih]

lemma cumSums_chain : ∀ (xs : List Nat) (acc : Nat),
    List.Chain' (· ≤ ·) (cumSums acc xs) := by
  intro xs
  induction xs with
  | nil => intro acc; exact List.chain'_nil
  | cons x xs ih =>
    intro acc
    cases xs with
    | nil => exact List.chain'_singleton _
    | cons y ys =>
      show List.Chain' (· ≤ ·) ((acc + x) :: (acc + x + y) :: cumSums (acc + x + y) ys)
      exact List.Chain'.cons (Nat.le_add_right _ _) (ih (acc + x))

lemma cumSums_getElem? : ∀ (xs : List Nat) (acc i v : Nat), (∀ x ∈ xs, 0 < x) →
    (cumSums acc xs)[i]? = some v →
    v ≤ acc + xs.sum ∧ (v = acc + xs.sum ↔ i = xs.length - 1) := by
  intro xs
  induction xs with
  | nil => intro acc i v _ h; simp [cumSums] at h
  | cons x xs ih =>
    intro acc i v hpos h
    cases i with
    | zero =>
      simp only [cumSums, List.getElem?_cons_zero, Option.some.injEq] at h
      subst h
      cases xs with
      | nil => simp
      | cons y ys =>
        have hy : 0 < y := hpos y (by simp)
        simp only [List.sum_cons, List.length_cons]
        omega
    | succ j =>
      simp only [cumSums, List.getElem?_cons_succ] at h
      cases xs with
      | nil => simp [cumSums] at h
      | cons y ys =>
        obtain ⟨h1, h2⟩ := ih (acc + x) j v (fun z hz => hpos z (by simp [hz])) h
        simp only [List.sum_cons, List.length_cons] at *
        omega

lemma cumSums_getLast? : ∀ (xs : List Nat) (acc : Nat), xs ≠ [] →
    (cumSums acc xs).getLast? = some (acc + xs.sum) := by
  intro xs
  induction xs with
  | nil => intro acc h; exact absurd rfl h
  | cons x xs ih =>
    intro acc _
    cases xs with
    | nil => simp [cumSums]
    | cons y ys =>
      have h2 := ih (acc + x) (by simp)
      show ((acc + x) :: (acc + x + y) :: cumSums (acc + x + y) ys).getLast? = _
      rw [List.getLast?_cons_cons]
      rw [show ((acc + x + y) :: cumSums (acc + x + y) ys) = cumSums (acc + x) (y :: ys) from rfl,
        h2]
      simp only [List.sum_cons, Option.some.injEq]
      omega

lemma falha_ne_empty (p t : String) : p ++ t ++ ")" ≠ "" := by
  intro h
  have hlen := congrArg String.length h
  have h1 : (")" : String).length = 1 := rfl
  have h0 : ("" : String).length = 0 := rfl
  simp only [String.length_append, h1, h0] at hlen
  omega

end ConsultaCep


namespace ConsultaCep

/-- C1 (counterexample): for the valid code 01001000 with every provider
succeeding, fetch_all_apis_for_cep still issues HTTP requests to VIACEP
and AWESOMEAPI although BRASILAPI already succeeded, and returns three
records rather than one record tagged with the winning provider — so
providers are not tried sequentially with a stop at first success. -/
theorem C1_counterexample :
    (fetch_all_apis_for_cep ⟨"P1", "01001-000"⟩ "01001000".data apiAllOk).rows.map
        Row.status =
      ["BRASILAPI: Sucesso", "VIACEP: Sucesso", "AWESOMEAPI: Sucesso"] ∧
    (fetch_all_apis_for_cep ⟨"P1", "01001-000"⟩ "01001000".data apiAllOk).calls =
      [("BRASILAPI", "01001000".data), ("VIACEP", "01001000".data),
       ("AWESOMEAPI", "01001000".data)] ∧
    (fetch_all_apis_for_cep ⟨"P1", "01001-000"⟩ "01001000".data apiAllOk).rows.length = 3 := by
  decide

/-- C1 (amended): for every valid postal code, all three providers are
queried unconditionally, in the fixed order BRASILAPI, VIACEP, AWESOMEAPI,
and one record per provider is returned, each carrying that provider's own
normalized address fields; failure is reported per provider instead of by
a single total-failure record. -/
theorem C1_all_providers_queried (base : BaseRow) (cep : List Char) (api : ApiResponses)
    (hv : cepInvalido cep = false) :
    (fetch_all_apis_for_cep base cep api).calls =
      [("BRASILAPI", cep), ("VIACEP", cep), ("AWESOMEAPI", cep)] ∧
    (fetch_all_apis_for_cep base cep api).rows.map
        (fun r => (r.endereco, r.bairro, r.cidade, r.estado)) =
      [(dictGet (brasilApiData api.brasilapi) "street",
        dictGet (brasilApiData api.brasilapi) "neighborhood",
        dictGet (brasilApiData api.brasilapi) "city",
        dictGet (brasilApiData api.brasilapi) "state"),
       (dictGet (viaCepData api.viacep) "logradouro",
        dictGet (viaCepData api.viacep) "bairro",
        dictGet (viaCepData api.viacep) "localidade",
        dictGet (viaCepData api.viacep) "uf"),
       (dictGet (awesomeApiData api.awesomeapi) "address",
        dictGet (awesomeApiData api.awesomeapi) "district",
        dictGet (awesomeApiData api.awesomeapi) "city",
        dictGet (awesomeApiData api.awesomeapi) "state")] := by
  simp [fetch_all_apis_for_cep, hv]

/-- C1 (witness): the amended statement instantiated at the code 01001000
and the all-success environment. -/
theorem C1_witness :
    (fetch_all_apis_for_cep ⟨"P1", "01001-000"⟩ "01001000".data apiAllOk).calls =
      [("BRASILAPI", "01001000".data), ("VIACEP", "01001000".data),
       ("AWESOMEAPI", "01001000".data)] ∧
    (fetch_all_apis_for_cep ⟨"P1", "01001-000"⟩ "01001000".data apiAllOk).rows.map
        (fun r => (r.endereco, r.bairro, r.cidade, r.estado)) =
      [(dictGet (brasilApiData apiAllOk.brasilapi) "street",
        dictGet (brasilApiData apiAllOk.brasilapi) "neighborhood",
        dictGet (brasilApiData apiAllOk.brasilapi) "city",
        dictGet (brasilApiData apiAllOk.brasilapi) "state"),
       (dictGet (viaCepData apiAllOk.viacep) "logradouro",
        dictGet (viaCepData apiAllOk.viacep) "bairro",
        dictGet (viaCepData apiAllOk.viacep) "localidade",
        dictGet (viaCepData apiAllOk.viacep) "uf"),
       (dictGet (awesomeApiData apiAllOk.awesomeapi) "address",
        dictGet (awesomeApiData apiAllOk.awesomeapi) "district",
        dictGet (awesomeApiData apiAllOk.awesomeapi) "city",
        dictGet (awesomeApiData apiAllOk.awesomeapi) "state")] :=
  C1_all_providers_queried ⟨"P1", "01001-000"⟩ "01001000".data apiAllOk (by decide)

end ConsultaCep

namespace ConsultaCep

lemma stripNonDigits_all (l : List Char) :
    (stripNonDigits l).all Char.isDigit = true := by
  rw [List.all_eq_true]
  intro a ha
  exact (List.mem_filter.mp ha).2

lemma cep_padronizado_length (s : List Char) (h : (stripNonDigits s).length ≤ 8) :
    (cep_padronizado s).length = 8 := by
  simp only [cep_padronizado, zfill, List.length_append, List.length_replicate]
  omega

lemma cep_padronizado_valido (s : List Char) (h : (stripNonDigits s).length ≤ 8) :
    cepInvalido (cep_padronizado s) = false := by
  have hlen := cep_padronizado_length s h
  have hall : (cep_padronizado s).all Char.isDigit = true := by
    rw [List.all_eq_true]
    intro a ha
    simp only [cep_padronizado, zfill, List.mem_append, List.mem_replicate] at ha
    rcases ha with ⟨_, rfl⟩ | ha
    · decide
    · exact List.all_eq_true.mp (stripNonDigits_all s) a ha
  have hne : (cep_padronizado s).isEmpty = false := by
    cases hcp : cep_padronizado s with
    | nil => rw [hcp] at hlen; simp at hlen
    | cons a as => rfl
  simp [cepInvalido, pyIsdigit, hne, hall, hlen]

lemma cep_padronizado_invalido (s : List Char) (h : 8 < (stripNonDigits s).length) :
    cep_padronizado s = stripNonDigits s ∧ cepInvalido (cep_padronizado s) = true := by
  have he : cep_padronizado s = stripNonDigits s := by
    simp [cep_padronizado, zfill, Nat.sub_eq_zero_of_le (Nat.le_of_lt h)]
  refine ⟨he, ?_⟩
  rw [he]
  have hne : (stripNonDigits s).length ≠ 8 := by omega
  simp [cepInvalido, hne]

/-- C4 (counterexample): the code 123 has three digits after stripping,
yet normalization pads it to 00000123, which passes the validity guard, so
all three providers are contacted and no record is classified Formato de
CEP Inválido — refuting that short codes yield InvalidFormat without a
network call. -/
theorem C4_counterexample :
    cep_padronizado "123".data = "00000123".data ∧
    cepInvalido (cep_padronizado "123".data) = false ∧
    (fetch_all_apis_for_cep ⟨"P1", "123"⟩ (cep_padronizado "123".data) apiAllOk).calls =
      [("BRASILAPI", "00000123".data), ("VIACEP", "00000123".data),
       ("AWESOMEAPI", "00000123".data)] ∧
    (fetch_all_apis_for_cep ⟨"P1", "123"⟩ (cep_padronizado "123".data) apiAllOk).rows.map
        Row.status =
      ["BRASILAPI: Sucesso", "VIACEP: Sucesso", "AWESOMEAPI: Sucesso"] := by
  decide

/-- C4 (amended): a code with at most 8 digits after stripping non-digits
is zero-padded to a valid 8-digit code and sent to all three providers;
only a code with more than 8 digits after stripping is classified Formato
de CEP Inválido without any provider request. -/
theorem C4_padding_vs_invalid (s : List Char) (base : BaseRow) (api : ApiResponses) :
    if (stripNonDigits s).length ≤ 8 then
      cepInvalido (cep_padronizado s) = false ∧
      (fetch_all_apis_for_cep base (cep_padronizado s) api).calls =
        [("BRASILAPI", cep_padronizado s), ("VIACEP", cep_padronizado s),
         ("AWESOMEAPI", cep_padronizado s)]
    else
      cepInvalido (cep_padronizado s) = true ∧
      (fetch_all_apis_for_cep base (cep_padronizado s) api).calls = [] ∧
      (fetch_all_apis_for_cep base (cep_padronizado s) api).rows.map Row.status =
        ["Formato de CEP Inválido"] := by
  by_cases h : (stripNonDigits s).length ≤ 8
  · rw [if_pos h]
    have hv := cep_padronizado_valido s h
    exact ⟨hv, by simp [fetch_all_apis_for_cep, hv]⟩
  · rw [if_neg h]
    have hv := (cep_padronizado_invalido s (by omega)).2
    refine ⟨hv, ?_, ?_⟩ <;> simp [fetch_all_apis_for_cep, hv]

/-- C9: normalization is idempotent on already-normalized codes — for any
8-character all-digit code, cep_padronizado returns it unchanged. -/
theorem C9_normalization_idempotent (l : List Char)
    (hd : l.all Char.isDigit = true) (h8 : l.length = 8) :
    cep_padronizado l = l := by
  have hfilter : stripNonDigits l = l :=
    List.filter_eq_self.mpr (List.all_eq_true.mp hd)
  simp [cep_padronizado, zfill, hfilter, h8]

/-- C9 (witness): idempotence evaluated at the normalized code 01001000. -/
theorem C9_witness :
    "01001000".data.all Char.isDigit = true ∧ "01001000".data.length = 8 ∧
    cep_padronizado "01001000".data = "01001000".data :=
  ⟨by decide, by decide, C9_normalization_idempotent "01001000".data (by decide) (by decide)⟩

/-- C7: a ViaCEP response with HTTP status 200 whose raw text carries the
erro marker is interpreted as an empty result, so the VIACEP record gets a
Falha status rather than Sucesso; the erro special-case lives in the
ViaCEP interpretation only — the BrasilAPI and AwesomeAPI interpretations
ignore the marker. -/
theorem C7_viacep_erro_failure (base : BaseRow) (cep : List Char) (api : ApiResponses)
    (body : List (String × String))
    (hv : cepInvalido cep = false)
    (hvia : api.viacep = HttpResult.response 200 body true) :
    viaCepData api.viacep = [] ∧
    ((fetch_all_apis_for_cep base cep api).rows.map Row.status)[1]? =
      some "VIACEP: Falha (Response)" ∧
    (∀ (b : List (String × String)) (e : Bool),
      brasilApiData (HttpResult.response 200 b e) = b ∧
      awesomeApiData (HttpResult.response 200 b e) = b) := by
  refine ⟨by rw [hvia]; rfl, ?_, fun b e => ⟨rfl, rfl⟩⟩
  simp [fetch_all_apis_for_cep, hv, hvia, viaCepData, HttpResult.typeName]

/-- C7 (witness): the erro special-case evaluated at a concrete 200
response whose text contains erro. -/
theorem C7_witness :
    viaCepData (ApiResponses.viacep
      ⟨.failure "ConnectError", .response 200 [("logradouro", "a")] true,
       .failure "ConnectError"⟩) = [] ∧
    ((fetch_all_apis_for_cep ⟨"P1", "x"⟩ "01001000".data
        ⟨.failure "ConnectError", .response 200 [("logradouro", "a")] true,
         .failure "ConnectError"⟩).rows.map Row.status)[1]? =
      some "VIACEP: Falha (Response)" ∧
    (∀ (b : List (String × String)) (e : Bool),
      brasilApiData (HttpResult.response 200 b e) = b ∧
      awesomeApiData (HttpResult.response 200 b e) = b) :=
  C7_viacep_erro_failure ⟨"P1", "x"⟩ "01001000".data
    ⟨.failure "ConnectError", .response 200 [("logradouro", "a")] true,
     .failure "ConnectError"⟩ [("logradouro", "a")] (by decide) rfl

end ConsultaCep

namespace ConsultaCep

lemma status_ite_ne_empty (c : Bool) (pre t suc : String) (hs : suc ≠ "") :
    ((if c = true then pre ++ t ++ ")" else suc) == "") = false := by
  cases c
  · simpa using hs
  · simpa using falha_ne_empty pre t

/-- C10: for a valid 8-digit code, fetch_all_apis_for_cep returns exactly
three rows in the fixed order BRASILAPI, VIACEP, AWESOMEAPI, each with a
non-empty STATUS that is either the Sucesso literal for its provider or a
Falha message for its provider; for an invalid code it returns exactly one
row with STATUS Formato de CEP Inválido. -/
theorem C10_fetch_output_shape (base : BaseRow) (cep : List Char) (api : ApiResponses) :
    if cepInvalido cep = true then
      (fetch_all_apis_for_cep base cep api).rows.map Row.status =
        ["Formato de CEP Inválido"]
    else
      (fetch_all_apis_for_cep base cep api).rows.length = 3 ∧
      ((fetch_all_apis_for_cep base cep api).rows.map Row.status).all
        (fun s => !(s == "")) = true ∧
      (((fetch_all_apis_for_cep base cep api).rows.map Row.status)[0]? =
          some "BRASILAPI: Sucesso" ∨
        ∃ t, ((fetch_all_apis_for_cep base cep api).rows.map Row.status)[0]? =
          some ("BRASILAPI: Falha (" ++ t ++ ")")) ∧
      (((fetch_all_apis_for_cep base cep api).rows.map Row.status)[1]? =
          some "VIACEP: Sucesso" ∨
        ∃ t, ((fetch_all_apis_for_cep base cep api).rows.map Row.status)[1]? =
          some ("VIACEP: Falha (" ++ t ++ ")")) ∧
      (((fetch_all_apis_for_cep base cep api).rows.map Row.status)[2]? =
          some "AWESOMEAPI: Sucesso" ∨
        ∃ t, ((fetch_all_apis_for_cep base cep api).rows.map Row.status)[2]? =
          some ("AWESOMEAPI: Falha (" ++ t ++ ")")) := by
  by_cases h : cepInvalido cep = true
  · rw [if_pos h]
    simp [fetch_all_apis_for_cep, h]
  · rw [if_neg h]
    have h' : cepInvalido cep = false := by
      cases hb : cepInvalido cep
      · rfl
      · exact absurd hb h
    refine ⟨by simp [fetch_all_apis_for_cep, h'], ?_, ?_, ?_, ?_⟩
    · have e1 := status_ite_ne_empty (brasilApiData api.brasilapi).isEmpty
        "BRASILAPI: Falha (" api.brasilapi.typeName "BRASILAPI: Sucesso" (by decide)
      have e2 := status_ite_ne_empty (viaCepData api.viacep).isEmpty
        "VIACEP: Falha (" api.viacep.typeName "VIACEP: Sucesso" (by decide)
      have e3 := status_ite_ne_empty (awesomeApiData api.awesomeapi).isEmpty
        "AWESOMEAPI: Falha (" api.awesomeapi.typeName "AWESOMEAPI: Sucesso" (by decide)
      simp only [fetch_all_apis_for_cep, h', Bool.false_eq_true, if_false,
        List.map_cons, List.map_nil, List.all_cons, List.all_nil, Bool.and_true,
        e1, e2, e3, Bool.not_false, Bool.and_self]
    · by_cases hbr : (brasilApiData api.brasilapi).isEmpty = true
      · exact Or.inr ⟨api.brasilapi.typeName, by simp [fetch_all_apis_for_cep, h', hbr]⟩
      · exact Or.inl (by simp [fetch_all_apis_for_cep, h', hbr])
    · by_cases hvi : (viaCepData api.viacep).isEmpty = true
      · exact Or.inr ⟨api.viacep.typeName, by simp [fetch_all_apis_for_cep, h', hvi]⟩
      · exact Or.inl (by simp [fetch_all_apis_for_cep, h', hvi])
    · by_cases haw : (awesomeApiData api.awesomeapi).isEmpty = true
      · exact Or.inr ⟨api.awesomeapi.typeName, by simp [fetch_all_apis_for_cep, h', haw]⟩
      · exact Or.inl (by simp [fetch_all_apis_for_cep, h', haw])

end ConsultaCep

namespace ConsultaCep

lemma fetch_rows_length (base : BaseRow) (cep : List Char) (api : ApiResponses) :
    (fetch_all_apis_for_cep base cep api).rows.length =
      if cepInvalido cep then 1 else 3 := by
  by_cases h : cepInvalido cep = true <;> simp [fetch_all_apis_for_cep, h]

/-- C2 (counterexample): a job of a single input row with a valid postal
code produces three result records, not one, so exported row count does
not equal input row count. -/
theorem C2_counterexample :
    (processar_job_results envAllOk [⟨"P1", "01001-000"⟩]).length = 3 ∧
    ([(⟨"P1", "01001-000"⟩ : InputRow)]).length = 1 := by
  decide

/-- C2 (amended): every input row yields one result record per provider
consulted — three records when its normalized code is valid and one
Formato de CEP Inválido record when it is not — so the exported row count
is the sum over input rows of 3 for valid-code rows and 1 for
invalid-code rows, and failed rows are still present. -/
theorem C2_records_per_row (env : Env) (rows : List InputRow) :
    (processar_job_results env rows).length =
      (rows.map (fun r =>
        if cepInvalido (cep_padronizado r.cep_val.data) then 1 else 3)).sum := by
  unfold processar_job_results
  rw [lista_de_lotes_flatMap]
  induction rows with
  | nil => rfl
  | cons x xs ih =>
    simp only [List.flatMap_cons, List.length_append, List.map_cons, List.sum_cons, ih]
    rw [run_fetch, fetch_rows_length]

lemma run_fetch_countP_br (env : Env) (r : InputRow) (c : List Char) :
    (run_fetch env r).calls.countP (fun p => p.1 == "BRASILAPI" && p.2 == c) =
      if cep_padronizado r.cep_val.data == c &&
         !cepInvalido (cep_padronizado r.cep_val.data) then 1 else 0 := by
  have nb : (("BRASILAPI" : String) == "BRASILAPI") = true := by decide
  have nv : (("VIACEP" : String) == "BRASILAPI") = false := by decide
  have na : (("AWESOMEAPI" : String) == "BRASILAPI") = false := by decide
  by_cases hv : cepInvalido (cep_padronizado r.cep_val.data) = true
  · simp [run_fetch, fetch_all_apis_for_cep, hv]
  · have hv' : cepInvalido (cep_padronizado r.cep_val.data) = false := by
      cases hb : cepInvalido (cep_padronizado r.cep_val.data)
      · rfl
      · exact absurd hb hv
    by_cases hc : (cep_padronizado r.cep_val.data == c) = true
    · simp [run_fetch, fetch_all_apis_for_cep, hv', hc, List.countP_cons, nb, nv, na]
    · have hc' : (cep_padronizado r.cep_val.data == c) = false := by
        cases hb : cep_padronizado r.cep_val.data == c
        · rfl
        · exact absurd hb hc
      simp [run_fetch, fetch_all_apis_for_cep, hv', hc', List.countP_cons, nb, nv, na]

lemma fetch_fields_ignore_base (b₁ b₂ : BaseRow) (cep : List Char) (api : ApiResponses) :
    (fetch_all_apis_for_cep b₁ cep api).rows.map
      (fun r => (r.endereco, r.bairro, r.cidade, r.estado, r.status)) =
    (fetch_all_apis_for_cep b₂ cep api).rows.map
      (fun r => (r.endereco, r.bairro, r.cidade, r.estado, r.status)) := by
  by_cases h : cepInvalido cep = true <;> simp [fetch_all_apis_for_cep, h]

/-- C3 (counterexample): two input rows normalizing to the same postal
code 01001000 trigger two separate resolutions — the job trace carries two
BRASILAPI requests for that code, not one. -/
theorem C3_counterexample :
    cep_padronizado "01001-000".data = cep_padronizado "01001000".data ∧
    (processar_job_calls envAllOk [⟨"P1", "01001-000"⟩, ⟨"P2", "01001000"⟩]).countP
      (fun p => p.1 == "BRASILAPI" && p.2 == "01001000".data) = 2 := by
  decide

/-- C3 (amended): no deduplication happens — each input row with a valid
normalized code triggers its own resolution, so a code occurring in k such
rows is resolved k times; and because provider answers are a function of
the postal code, any two rows sharing a normalized code receive identical
resolved address fields and statuses. -/
theorem C3_resolution_per_row :
    (∀ (env : Env) (rows : List InputRow) (c : List Char),
      (processar_job_calls env rows).countP
          (fun p => p.1 == "BRASILAPI" && p.2 == c) =
        rows.countP (fun r => cep_padronizado r.cep_val.data == c &&
          !cepInvalido (cep_padronizado r.cep_val.data))) ∧
    (∀ (env : Env) (r₁ r₂ : InputRow),
      cep_padronizado r₁.cep_val.data = cep_padronizado r₂.cep_val.data →
      (run_fetch env r₁).rows.map
        (fun r => (r.endereco, r.bairro, r.cidade, r.estado, r.status)) =
      (run_fetch env r₂).rows.map
        (fun r => (r.endereco, r.bairro, r.cidade, r.estado, r.status))) := by
  constructor
  · intro env rows c
    unfold processar_job_calls
    rw [lista_de_lotes_flatMap]
    induction rows with
    | nil => rfl
    | cons x xs ih =>
      simp only [List.flatMap_cons, List.countP_append, List.countP_cons, ih,
        run_fetch_countP_br]
      cases hx : cep_padronizado x.cep_val.data == c &&
          !cepInvalido (cep_padronizado x.cep_val.data) <;>
        simp [hx, Nat.add_comm]
  · intro env r₁ r₂ h
    simp only [run_fetch]
    rw [h]
    exact fetch_fields_ignore_base ⟨r₁.prop_val, r₁.cep_val⟩ ⟨r₂.prop_val, r₂.cep_val⟩ _ _

/-- C3 (witness): the identical-fields part evaluated at two rows sharing
the normalized code 01001000. -/
theorem C3_witness :
    (run_fetch envAllOk ⟨"P1", "01001-000"⟩).rows.map
      (fun r => (r.endereco, r.bairro, r.cidade, r.estado, r.status)) =
    (run_fetch envAllOk ⟨"P2", "01001000"⟩).rows.map
      (fun r => (r.endereco, r.bairro, r.cidade, r.estado, r.status)) :=
  C3_resolution_per_row.2 envAllOk ⟨"P1", "01001-000"⟩ ⟨"P2", "01001000"⟩ (by decide)

end ConsultaCep

namespace ConsultaCep

/-- C6: across the progress-persistence calls of one job run the reported
processed_ceps values are monotonically non-decreasing, never exceed the
row count (the job's total_ceps, set to the sheet length at creation),
equal it exactly at the final per-batch call, and the last call reports
exactly the total. -/
theorem C6_progress_monotone (rows : List InputRow) :
    List.Chain' (· ≤ ·) (progress_updates rows) ∧
    (∀ i v, (progress_updates rows)[i]? = some v →
      v ≤ rows.length ∧
      (v = rows.length ↔ i = (progress_updates rows).length - 1)) ∧
    (rows ≠ [] → (progress_updates rows).getLast? = some rows.length) := by
  refine ⟨cumSums_chain _ _, ?_, ?_⟩
  · intro i v h
    have hpos : ∀ x ∈ (lista_de_lotes rows).map List.length, 0 < x := by
      intro x hx
      obtain ⟨b, hb, rfl⟩ := List.mem_map.mp hx
      exact lista_de_lotes_pos rows b hb
    have hmain := cumSums_getElem? ((lista_de_lotes rows).map List.length) 0 i v hpos h
    rw [Nat.zero_add, lista_de_lotes_sum_length] at hmain
    have hlen : (progress_updates rows).length =
        ((lista_de_lotes rows).map List.length).length := cumSums_length _ _
    rw [List.length_map] at hlen
    refine ⟨hmain.1, ?_⟩
    rw [hmain.2, hlen, List.length_map]
  · intro hne
    have hb : (lista_de_lotes rows).map List.length ≠ [] := by
      cases rows with
      | nil => exact absurd rfl hne
      | cons x xs => rw [lista_de_lotes_cons]; simp
    unfold progress_updates
    rw [cumSums_getLast? _ 0 hb, Nat.zero_add, lista_de_lotes_sum_length]

/-- C6 (witness): the progress invariants evaluated on a 51-row job, which
has two batches and persistence calls 50 then 51. -/
theorem C6_witness :
    (progress_updates (List.replicate 51 ⟨"p", "c"⟩))[0]? = some 50 ∧
    (50 ≤ (List.replicate 51 (⟨"p", "c"⟩ : InputRow)).length ∧
      (50 = (List.replicate 51 (⟨"p", "c"⟩ : InputRow)).length ↔
        0 = (progress_updates (List.replicate 51 ⟨"p", "c"⟩)).length - 1)) ∧
    (progress_updates (List.replicate 51 ⟨"p", "c"⟩)).getLast? =
      some (List.replicate 51 (⟨"p", "c"⟩ : InputRow)).length :=
  ⟨by decide,
   (C6_progress_monotone (List.replicate 51 ⟨"p", "c"⟩)).2.1 0 50 (by decide),
   (C6_progress_monotone (List.replicate 51 ⟨"p", "c"⟩)).2.2 (by decide)⟩

lemma semStep_inv : ∀ {K : Nat} {s t : SemState},
    SemStep K s t → SemInv K s → SemInv K t := by
  intro K s t h hs
  obtain ⟨h1, h2⟩ := hs
  cases h with
  | start p ts hlt =>
    constructor
    · simpa using hlt
    · intro c hc
      rcases List.mem_cons.mp hc with rfl | hc
      · exact Nat.le_refl 3
      · exact h2 c hc
  | callDone p c l₁ l₂ =>
    constructor
    · simp only [List.length_append, List.length_cons] at h1 ⊢
      omega
    · intro d hd
      rcases List.mem_append.mp hd with hd | hd
      · exact h2 d (List.mem_append.mpr (Or.inl hd))
      · rcases List.mem_cons.mp hd with hdc | hd
        · have hc1 : c + 1 ≤ 3 := h2 (c + 1)
            (List.mem_append.mpr (Or.inr (List.mem_cons.mpr (Or.inl rfl))))
          omega
        · exact h2 d (List.mem_append.mpr (Or.inr (List.mem_cons.mpr (Or.inr hd))))
  | finish p l₁ l₂ =>
    constructor
    · simp only [List.length_append, List.length_cons] at h1 ⊢
      omega
    · intro d hd
      rcases List.mem_append.mp hd with hd | hd
      · exact h2 d (List.mem_append.mpr (Or.inl hd))
      · exact h2 d (List.mem_append.mpr (Or.inr (List.mem_cons.mpr (Or.inr hd))))

lemma semReachable_inv {K N : Nat} {s : SemState} (h : SemReachable K N s) :
    SemInv K s := by
  induction h with
  | refl => exact ⟨Nat.zero_le K, fun c hc => absurd hc (List.not_mem_nil c)⟩
  | tail _ hbc ih => exact semStep_inv hbc ih

/-- What the semaphore actually guarantees: reachable states have at most
three times the limit in outstanding provider requests, since each of the
at most K slot holders gathers three requests. -/
lemma outstanding_le_three_mul {K N : Nat} {s : SemState} (h : SemReachable K N s) :
    outstanding s ≤ 3 * K := by
  obtain ⟨h1, h2⟩ := semReachable_inv h
  have hsum := List.sum_le_card_nsmul s.tasks 3 h2
  simp only [smul_eq_mul] at hsum
  unfold outstanding
  omega

/-- C5: with CONCURRENCY_LIMIT 8 and only 3 submitted resolution tasks,
the batch scheduler reaches a state with 9 outstanding provider HTTP
requests — more than the limit — because the semaphore bounds resolutions
while each resolution gathers three concurrent provider requests. -/
theorem C5_limit_exceeded :
    SemReachable CONCURRENCY_LIMIT 3 ⟨0, [3, 3, 3]⟩ ∧
    CONCURRENCY_LIMIT < outstanding ⟨0, [3, 3, 3]⟩ := by
  constructor
  · have s1 : SemStep CONCURRENCY_LIMIT ⟨3, []⟩ ⟨2, [3]⟩ :=
      SemStep.start 2 [] (by decide)
    have s2 : SemStep CONCURRENCY_LIMIT ⟨2, [3]⟩ ⟨1, [3, 3]⟩ :=
      SemStep.start 1 [3] (by decide)
    have s3 : SemStep CONCURRENCY_LIMIT ⟨1, [3, 3]⟩ ⟨0, [3, 3, 3]⟩ :=
      SemStep.start 0 [3, 3] (by decide)
    exact Relation.ReflTransGen.tail
      (Relation.ReflTransGen.tail
        (Relation.ReflTransGen.tail Relation.ReflTransGen.refl s1) s2) s3
  · decide

/-- C8 (counterexample): updating an already CONCLUIDO job with status
CONCLUIDO at a later time re-stamps finished_at and mutates the stored
job, so finished_at is not set only on the transition into a terminal
state and terminal jobs are not protected from further mutation. -/
theorem C8_counterexample :
    (update_job_status 2 ⟨"CONCLUIDO", 10, 10, some 1⟩ "CONCLUIDO" none).finished_at =
      some 2 ∧
    (⟨"CONCLUIDO", 10, 10, some 1⟩ : Job).status = "CONCLUIDO" ∧
    update_job_status 2 ⟨"CONCLUIDO", 10, 10, some 1⟩ "CONCLUIDO" none ≠
      ⟨"CONCLUIDO", 10, 10, some 1⟩ := by
  decide

/-- C8 (amended): update_job_status stamps finished_at with the current
time on every call whose new status is terminal (CONCLUIDO or FALHOU),
whether or not the job was already terminal, and leaves finished_at
unchanged on every non-terminal call; status and processed_ceps are
updated as requested and total_ceps is never touched. -/
theorem C8_finished_at_semantics (j : Job) (s : String) (p : Option Nat) (now : Nat) :
    (update_job_status now j s p).finished_at =
      (if s ∈ ["CONCLUIDO", "FALHOU"] then some now else j.finished_at) ∧
    (update_job_status now j s p).status = s ∧
    (update_job_status now j s p).processed_ceps = p.getD j.processed_ceps ∧
    (update_job_status now j s p).total_ceps = j.total_ceps := by
  cases p <;> by_cases h : s ∈ ["CONCLUIDO", "FALHOU"] <;>
    simp [update_job_status, h]

end ConsultaCep
